import Mathlib

/-!
Shallow embedding of the API-key authentication subsystem of the
django-base-project repository: the `APIKey` model (src/common/models.py)
and the `APIKeyAuthentication` / `CombinedAuthentication` classes
(src/common/authentication.py).

Conventions of the embedding:
* time is a `Nat` (seconds); `timezone.now()` becomes an explicit `now`
  argument; one hour is 3600;
* the database table of `APIKey` rows is a `List APIKey`;
  `APIKey.objects.get(key=key)` becomes a `List.find?` on the `key` field
  (the column carries a uniqueness constraint, so the first match is the
  only match);
* Python byte strings (the raw Authorization header) are `List Nat`
  (byte values); `bytes.split()` (split on ASCII-whitespace runs,
  dropping empty pieces), `bytes.lower()` and `bytes.decode()` (strict
  UTF-8) are reproduced at the byte level below;
* raising `exceptions.AuthenticationFailed` becomes the
  `AuthOutcome.failure` constructor, `return None` (decline so other
  authenticators may run) becomes `AuthOutcome.skipped`;
* `secrets.choice(alphabet)` draws from an unspecified entropy stream,
  modelled as a function `rand : Nat → Nat` giving the index chosen at
  each position (reduced into range with `% 62`).
-/

/-- The owning user row, reduced to the fields the authentication code
reads: `user.is_active` (src/common/authentication.py line 60). An `id`
keeps distinct users distinguishable. -/
structure UserRec where
  uid : Nat
  is_active : Bool
deriving DecidableEq, Repr

/-- The `APIKey` model of src/common/models.py. `prefix8` models the
`prefix` column (first 8 characters of the key). `allowed_ips` is the raw
comma-separated `TextField` content. `expires_at`, `last_used` and
`max_requests_per_hour` are nullable columns. -/
structure APIKey where
  name : String
  key : String
  prefix8 : String
  user : UserRec
  is_active : Bool
  last_used : Option Nat
  expires_at : Option Nat
  can_read : Bool
  can_write : Bool
  can_delete : Bool
  allowed_ips : String
  request_count : Nat
  max_requests_per_hour : Option Nat
deriving DecidableEq, Repr

/-- A byte Python `str.strip()` removes (ASCII whitespace). -/
def isPyWhitespace (c : Char) : Bool :=
  c = ' ' || c = '\t' || c = '\n' || c = '\r' || c = '\x0b' || c = '\x0c'

/-- Helper for `pySplit`: accumulates the current piece (reversed). -/
def pySplitAux (sep : Char) : List Char → List Char → List (List Char)
  | [], acc => [acc.reverse]
  | c :: rest, acc =>
    if c = sep then acc.reverse :: pySplitAux sep rest []
    else pySplitAux sep rest (c :: acc)

/-- Python `str.split(sep)` for a one-character separator: split at each
occurrence, keeping empty pieces (so the result is never empty). -/
def pySplit (sep : Char) (s : String) : List String :=
  (pySplitAux sep s.data []).map String.mk

/-- Python `str.strip()`: drop leading and trailing ASCII whitespace. -/
def pyStrip (s : String) : String :=
  String.mk
    (((s.data.dropWhile isPyWhitespace).reverse.dropWhile isPyWhitespace).reverse)

/-- The alphabet of `APIKey.generate_key`:
`string.ascii_letters + string.digits` (62 symbols). -/
def alphabet : List Char :=
  "abcdefghijklmnopqrstuvwxyzABCDEFGHIJKLMNOPQRSTUVWXYZ0123456789".data

theorem alphabet_length : alphabet.length = 62 := rfl

/-- One call of `secrets.choice(alphabet)`: the entropy value `r` selects
an alphabet symbol. -/
def secrets_choice (r : Nat) : Char :=
  alphabet.get ⟨r % 62, by rw [alphabet_length]; exact Nat.mod_lt _ (by decide)⟩

/-- `APIKey.generate_key` (src/common/models.py lines 54-58): 64 draws
from the alphabet, joined into a string. `rand` is the entropy stream. -/
def generate_key (rand : Nat → Nat) : String :=
  String.mk ((List.range 64).map fun i => secrets_choice (rand i))

/-- `APIKey.save` (src/common/models.py lines 48-52): if `key` is unset,
generate it and derive `prefix` as its first 8 characters. -/
def APIKey.save (k : APIKey) (rand : Nat → Nat) : APIKey :=
  if k.key = "" then
    let newkey := generate_key rand
    { k with key := newkey, prefix8 := String.mk (newkey.data.take 8) }
  else k

/-- `APIKey.is_valid` (src/common/models.py lines 60-68). -/
def APIKey.is_valid (k : APIKey) (now : Nat) : Bool :=
  if !k.is_active then false
  else if (match k.expires_at with
           | some e => decide (e < now)
           | none => false) then false
  else true

/-- `APIKey.is_ip_allowed` (src/common/models.py lines 70-76): blank
field means unrestricted; otherwise split on commas, strip each entry,
and test membership by string equality. -/
def APIKey.is_ip_allowed (k : APIKey) (ip_address : String) : Bool :=
  if k.allowed_ips = "" then true
  else ((pySplit ',' k.allowed_ips).map pyStrip).contains ip_address

/-- `APIKey.increment_usage` (src/common/models.py lines 78-82). -/
def APIKey.increment_usage (k : APIKey) (now : Nat) : APIKey :=
  { k with request_count := k.request_count + 1, last_used := some now }

/-- `APIKey.has_permission` (src/common/models.py lines 84-93):
`permission_map.get(action, False)`. -/
def APIKey.has_permission (k : APIKey) (action : String) : Bool :=
  if action = "GET" then k.can_read
  else if action = "POST" then k.can_write
  else if action = "PUT" then k.can_write
  else if action = "PATCH" then k.can_write
  else if action = "DELETE" then k.can_delete
  else false

/-- An inbound HTTP request, reduced to the fields the authenticator
reads: the raw `Authorization` header bytes (empty list when the header
is absent), the HTTP method, and the two IP-bearing META entries. -/
structure Request where
  auth_header : List Nat
  method : String
  http_x_forwarded_for : Option String
  remote_addr : String
deriving DecidableEq, Repr

/-- The distinct `AuthenticationFailed` messages raised by
`APIKeyAuthentication` (src/common/authentication.py). -/
inductive AuthFailure where
  /-- message: Invalid API key header. No credentials provided. -/
  | noCredentials
  /-- message: Invalid API key header. Credentials string should not contain spaces. -/
  | tooManyParts
  /-- message: Invalid API key header. Credentials string should not contain invalid characters. -/
  | invalidChars
  /-- message: Invalid API key. (key not found) -/
  | invalidKey
  /-- message: API key is inactive or expired. -/
  | inactiveOrExpired
  /-- message: User inactive or deleted. -/
  | userInactive
  /-- message: IP address not allowed for this API key. -/
  | ipNotAllowed
  /-- message: API key does not have permission for (method) requests. -/
  | methodNotPermitted
  /-- message: Rate limit exceeded for this API key. -/
  | rateLimitExceeded
deriving DecidableEq, Repr

/-- The possible outcomes of `APIKeyAuthentication.authenticate`:
return `None` (decline), raise `AuthenticationFailed`, or return the
`(user, api_key)` pair. -/
inductive AuthOutcome where
  | skipped
  | failure (f : AuthFailure)
  | success (u : UserRec) (k : APIKey)
deriving DecidableEq, Repr

/-- `APIKeyAuthentication.get_client_ip`
(src/common/authentication.py lines 89-96): first hop of
`HTTP_X_FORWARDED_FOR` when that header is present and non-empty
(Python truthiness), else `REMOTE_ADDR`. -/
def get_client_ip (req : Request) : String :=
  match req.http_x_forwarded_for with
  | some s => if s = "" then req.remote_addr else (pySplit ',' s).headD ""
  | none => req.remote_addr

/-- `APIKeyAuthentication.check_rate_limit`
(src/common/authentication.py lines 98-113), reproduced with its branch
structure: `if not api_key.max_requests_per_hour` is Python truthiness
(`None` or `0` both allow), and both arms of the `last_used` test return
`True`. -/
def check_rate_limit (api_key : APIKey) (now : Nat) : Bool :=
  match api_key.max_requests_per_hour with
  | none => true
  | some m =>
    if m = 0 then true
    else
      let one_hour_ago := now - 3600
      match api_key.last_used with
      | some lu => if one_hour_ago < lu then true else true
      | none => true

/-- `APIKeyAuthentication.authenticate_credentials`
(src/common/authentication.py lines 46-87). Returns the outcome together
with the updated key table (`increment_usage` saves the row). -/
def authenticate_credentials (db : List APIKey) (key : String)
    (req : Request) (now : Nat) : AuthOutcome × List APIKey :=
  match db.find? (fun r => r.key == key) with
  | none => (.failure .invalidKey, db)
  | some api_key =>
    if !api_key.is_valid now then (.failure .inactiveOrExpired, db)
    else if !api_key.user.is_active then (.failure .userInactive, db)
    else if !api_key.is_ip_allowed (get_client_ip req) then
      (.failure .ipNotAllowed, db)
    else if !api_key.has_permission req.method then
      (.failure .methodNotPermitted, db)
    else if !check_rate_limit api_key now then
      (.failure .rateLimitExceeded, db)
    else
      let upd := api_key.increment_usage now
      (.success upd.user upd,
       db.map fun r => if r.key == api_key.key then upd else r)

/-- An ASCII whitespace byte, the separators of Python `bytes.split()`. -/
def isSpaceByte (b : Nat) : Bool :=
  b = 32 || b = 9 || b = 10 || b = 13 || b = 11 || b = 12

/-- Helper for `bsplit`: accumulates the current token (reversed). -/
def bsplitAux : List Nat → List Nat → List (List Nat)
  | [], acc => if acc.isEmpty then [] else [acc.reverse]
  | b :: rest, acc =>
    if isSpaceByte b then
      if acc.isEmpty then bsplitAux rest []
      else acc.reverse :: bsplitAux rest []
    else bsplitAux rest (b :: acc)

/-- Python `bytes.split()` with no separator: split on runs of ASCII
whitespace, discarding empty tokens. -/
def bsplit (bs : List Nat) : List (List Nat) := bsplitAux bs []

/-- ASCII-lowercase one byte, as Python `bytes.lower()` does per byte. -/
def byteLower (b : Nat) : Nat :=
  if 65 ≤ b ∧ b ≤ 90 then b + 32 else b

/-- The comparison constant `self.keyword.lower().encode()`, the bytes
of the lowercased keyword (apikey). -/
def keywordLowerBytes : List Nat := [97, 112, 105, 107, 101, 121]

/-- A UTF-8 continuation byte. -/
def isCont (b : Nat) : Bool := 128 ≤ b && b ≤ 191

/-- Strict UTF-8 decoding of a byte list to its code points, as Python
`bytes.decode()` performs (overlong forms, surrogates and values above
U+10FFFF rejected); `none` models `UnicodeError`. -/
def utf8DecodePoints : List Nat → Option (List Nat)
  | [] => some []
  | b :: rest =>
    if b ≤ 127 then (utf8DecodePoints rest).map (b :: ·)
    else if 194 ≤ b && b ≤ 223 then
      match rest with
      | c :: r =>
        if isCont c then (utf8DecodePoints r).map (((b - 192) * 64 + (c - 128)) :: ·)
        else none
      | [] => none
    else if b = 224 then
      match rest with
      | c1 :: c2 :: r =>
        if (160 ≤ c1 && c1 ≤ 191) && isCont c2 then
          (utf8DecodePoints r).map
            (((b - 224) * 4096 + (c1 - 128) * 64 + (c2 - 128)) :: ·)
        else none
      | _ => none
    else if (225 ≤ b && b ≤ 236) || b = 238 || b = 239 then
      match rest with
      | c1 :: c2 :: r =>
        if isCont c1 && isCont c2 then
          (utf8DecodePoints r).map
            (((b - 224) * 4096 + (c1 - 128) * 64 + (c2 - 128)) :: ·)
        else none
      | _ => none
    else if b = 237 then
      match rest with
      | c1 :: c2 :: r =>
        if (128 ≤ c1 && c1 ≤ 159) && isCont c2 then
          (utf8DecodePoints r).map
            (((b - 224) * 4096 + (c1 - 128) * 64 + (c2 - 128)) :: ·)
        else none
      | _ => none
    else if b = 240 then
      match rest with
      | c1 :: c2 :: c3 :: r =>
        if (144 ≤ c1 && c1 ≤ 191) && isCont c2 && isCont c3 then
          (utf8DecodePoints r).map
            (((b - 240) * 262144 + (c1 - 128) * 4096 + (c2 - 128) * 64 + (c3 - 128)) :: ·)
        else none
      | _ => none
    else if 241 ≤ b && b ≤ 243 then
      match rest with
      | c1 :: c2 :: c3 :: r =>
        if isCont c1 && isCont c2 && isCont c3 then
          (utf8DecodePoints r).map
            (((b - 240) * 262144 + (c1 - 128) * 4096 + (c2 - 128) * 64 + (c3 - 128)) :: ·)
        else none
      | _ => none
    else if b = 244 then
      match rest with
      | c1 :: c2 :: c3 :: r =>
        if (128 ≤ c1 && c1 ≤ 143) && isCont c2 && isCont c3 then
          (utf8DecodePoints r).map
            (((b - 240) * 262144 + (c1 - 128) * 4096 + (c2 - 128) * 64 + (c3 - 128)) :: ·)
        else none
      | _ => none
    else none

/-- Python `bytes.decode()`: the code points assembled into a string
(`none` models `UnicodeError`). Code points from `utf8DecodePoints` are
always valid scalar values, so `Char.ofNat` never hits its fallback. -/
def utf8Decode (bs : List Nat) : Option String :=
  (utf8DecodePoints bs).map fun cps => String.mk (cps.map Char.ofNat)

/-- `APIKeyAuthentication.authenticate`
(src/common/authentication.py lines 22-44): tokenize the Authorization
header, decline when the scheme is absent or different, reject malformed
shapes, decode the credential, then delegate to
`authenticate_credentials`. -/
def authenticate (db : List APIKey) (req : Request) (now : Nat) :
    AuthOutcome × List APIKey :=
  match bsplit req.auth_header with
  | [] => (.skipped, db)
  | t0 :: rest =>
    if t0.map byteLower = keywordLowerBytes then
      match rest with
      | [] => (.failure .noCredentials, db)
      | [cred] =>
        match utf8Decode cred with
        | some key => authenticate_credentials db key req now
        | none => (.failure .invalidChars, db)
      | _ :: _ :: _ => (.failure .tooManyParts, db)
    else (.skipped, db)

/-- The outcome of the external `JWTAuthentication.authenticate` call
inside `CombinedAuthentication`: a `(user, token)` pair, `None`, or a
raised `AuthenticationFailed`. -/
inductive JWTOutcome where
  | success (u : UserRec) (tok : String)
  | noResult
  | authFailed
deriving DecidableEq, Repr

/-- Outcome of `CombinedAuthentication.authenticate`: either the
`(user, token)` pair of the JWT phase, or whatever the API-key phase
produced. -/
inductive CombinedOutcome where
  | jwtSuccess (u : UserRec) (tok : String)
  | apiKeyPhase (o : AuthOutcome)
deriving DecidableEq, Repr

/-- `CombinedAuthentication.authenticate`
(src/common/authentication.py lines 128-145): try JWT; on a truthy
result return it; on `None` or `AuthenticationFailed` fall through to
`APIKeyAuthentication.authenticate`. -/
def combined_authenticate (jwt : JWTOutcome) (db : List APIKey)
    (req : Request) (now : Nat) : CombinedOutcome × List APIKey :=
  match jwt with
  | .success u tok => (.jwtSuccess u tok, db)
  | .noResult =>
    let r := authenticate db req now
    (.apiKeyPhase r.1, r.2)
  | .authFailed =>
    let r := authenticate db req now
    (.apiKeyPhase r.1, r.2)

/-! Helper lemmas shared by the claim theorems. -/

/-- Both arms of every branch of `check_rate_limit` return true. -/
theorem check_rate_limit_eq_true (k : APIKey) (now : Nat) :
    check_rate_limit k now = true := by
  unfold check_rate_limit
  cases k.max_requests_per_hour with
  | none => rfl
  | some m =>
    cases k.last_used <;> simp

/-- Characterization of `APIKey.is_valid` returning false. -/
theorem is_valid_false_iff (k : APIKey) (now : Nat) :
    k.is_valid now = false ↔
      k.is_active = false ∨ ∃ e, k.expires_at = some e ∧ e < now := by
  unfold APIKey.is_valid
  cases hA : k.is_active <;> cases hE : k.expires_at <;> simp [hA, hE]

/-- Recognizer for the rate-limit failure outcome. -/
def AuthOutcome.isRateLimitFailure : AuthOutcome → Bool
  | .failure .rateLimitExceeded => true
  | _ => false

/-- The rate-limit branch of `authenticate_credentials` is dead. -/
theorem authenticate_credentials_no_rate_limit (db : List APIKey)
    (key : String) (req : Request) (now : Nat) :
    (authenticate_credentials db key req now).1.isRateLimitFailure = false := by
  unfold authenticate_credentials
  cases db.find? (fun r => r.key == key) with
  | none => rfl
  | some k =>
    simp only [check_rate_limit_eq_true, Bool.not_true]
    split
    · rfl
    · split
      · rfl
      · split
        · rfl
        · split
          · rfl
          · simp [AuthOutcome.isRateLimitFailure]

/-- Concrete rows used to instantiate hypothesis-bearing theorems. -/
def sampleUser : UserRec := ⟨1, true⟩

def sampleKey : APIKey :=
  { name := "sample", key := "s", prefix8 := "s", user := sampleUser,
    is_active := true, last_used := none, expires_at := none,
    can_read := true, can_write := false, can_delete := false,
    allowed_ips := "", request_count := 0, max_requests_per_hour := none }

def inactiveKey : APIKey := { sampleKey with key := "t", is_active := false }

def blankKey : APIKey := { sampleKey with key := "" }

def ipKey : APIKey := { sampleKey with allowed_ips := "10.0.0.1" }

/-! Claim theorems. -/

/-- C1: for every key record and every time, `check_rate_limit` returns
true (whether or not `max_requests_per_hour` is set, and regardless of
`request_count` and `last_used`), and consequently neither
`authenticate_credentials` nor `authenticate` can ever produce the
rate-limit-exceeded failure. -/
theorem rate_limit_check_is_noop (k : APIKey) (db : List APIKey)
    (key : String) (req : Request) (now : Nat) :
    check_rate_limit k now = true
    ∧ (authenticate_credentials db key req now).1.isRateLimitFailure = false
    ∧ (authenticate db req now).1.isRateLimitFailure = false := by
  refine ⟨check_rate_limit_eq_true k now,
          authenticate_credentials_no_rate_limit db key req now, ?_⟩
  unfold authenticate
  split
  · rfl
  · split
    · split
      · rfl
      · split
        · exact authenticate_credentials_no_rate_limit db _ req now
        · rfl
      · rfl
    · rfl

/-- C5: `is_valid` returns false exactly when the record is inactive or
has a set expiry strictly in the past; in particular it is false for
every inactive record regardless of expiry, and for every past-expiry
record even when active. -/
theorem is_valid_spec (k : APIKey) (now : Nat) :
    k.is_valid now = false ↔
      k.is_active = false ∨ ∃ e, k.expires_at = some e ∧ e < now :=
  is_valid_false_iff k now

/-- C6: `has_permission` is a pure function of the method string and the
three capability booleans: GET is gated by can_read; POST, PUT and PATCH
by can_write; DELETE by can_delete; every other method is denied. -/
theorem has_permission_spec (k : APIKey) (m : String) :
    k.has_permission "GET" = k.can_read
    ∧ k.has_permission "POST" = k.can_write
    ∧ k.has_permission "PUT" = k.can_write
    ∧ k.has_permission "PATCH" = k.can_write
    ∧ k.has_permission "DELETE" = k.can_delete
    ∧ (m ≠ "GET" → m ≠ "POST" → m ≠ "PUT" → m ≠ "PATCH" → m ≠ "DELETE" →
        k.has_permission m = false) := by
  refine ⟨rfl, rfl, rfl, rfl, rfl, ?_⟩
  intro h1 h2 h3 h4 h5
  simp [APIKey.has_permission, h1, h2, h3, h4, h5]

/-- C6 witness: a method outside the map (OPTIONS) is denied on a
concrete record. -/
theorem has_permission_spec_witness :
    sampleKey.has_permission "OPTIONS" = false :=
  (has_permission_spec sampleKey "OPTIONS").2.2.2.2.2
    (by decide) (by decide) (by decide) (by decide) (by decide)

/-- C7: `is_ip_allowed` returns true whenever the allow-list field is
blank, and otherwise returns true exactly when the client IP equals one
of the comma-separated, stripped entries. -/
theorem is_ip_allowed_spec (k : APIKey) (ip : String) :
    (k.allowed_ips = "" → k.is_ip_allowed ip = true)
    ∧ (k.allowed_ips ≠ "" →
        (k.is_ip_allowed ip = true ↔
          ip ∈ (pySplit ',' k.allowed_ips).map pyStrip)) := by
  constructor
  · intro h
    simp [APIKey.is_ip_allowed, h]
  · intro h
    simp [APIKey.is_ip_allowed, h]

/-- C7 witness: the blank allow-list admits any IP, a populated one
admits exactly its entry. -/
theorem is_ip_allowed_spec_witness :
    sampleKey.is_ip_allowed "8.8.8.8" = true
    ∧ ipKey.is_ip_allowed "10.0.0.1" = true :=
  ⟨(is_ip_allowed_spec sampleKey "8.8.8.8").1 (by decide),
   ((is_ip_allowed_spec ipKey "10.0.0.1").2 (by decide)).mpr (by decide)⟩

/-- C9: when the JWT phase raises an authentication failure, the
combined authenticator swallows it and returns exactly the outcome (and
state update) of the API-key phase on the same request. -/
theorem jwt_failure_falls_through (db : List APIKey) (req : Request)
    (now : Nat) :
    combined_authenticate .authFailed db req now =
      (CombinedOutcome.apiKeyPhase (authenticate db req now).1,
       (authenticate db req now).2) := rfl

/-- A well-formed sample request: header ApiKey s, method GET. -/
def sampleReq : Request :=
  ⟨[65, 112, 105, 75, 101, 121, 32, 115], "GET", none, "1.2.3.4"⟩

/-- A request carrying a different scheme (Basic xyz). -/
def basicReq : Request :=
  ⟨[66, 97, 115, 105, 99, 32, 120, 121, 122], "GET", none, "1.2.3.4"⟩

/-- C3: when the lookup finds a record that is inactive or past its
expiry, `authenticate_credentials` fails with the inactive-or-expired
classification and leaves the table untouched, regardless of the
permissions, allow-list, rate limit, client IP or method — so the IP,
method and rate-limit checks never run on such a key. -/
theorem inactive_or_expired_always_rejected (db : List APIKey)
    (key : String) (req : Request) (now : Nat) (k : APIKey)
    (hfind : db.find? (fun r => r.key == key) = some k)
    (hbad : k.is_active = false ∨ ∃ e, k.expires_at = some e ∧ e < now) :
    authenticate_credentials db key req now =
      (.failure .inactiveOrExpired, db) := by
  have hval : k.is_valid now = false := (is_valid_false_iff k now).mpr hbad
  unfold authenticate_credentials
  rw [hfind]
  simp [hval]

/-- C3 witness: a concrete inactive key is rejected as inactive-or-expired
even though its permissions, allow-list and rate limit would all pass. -/
theorem inactive_or_expired_always_rejected_witness :
    authenticate_credentials [inactiveKey] "t" sampleReq 0 =
      (.failure .inactiveOrExpired, [inactiveKey]) :=
  inactive_or_expired_always_rejected [inactiveKey] "t" sampleReq 0
    inactiveKey (by decide) (Or.inl (by decide))

/-- C10: when the tokenized Authorization header is empty (header absent
or blank) or its first token does not lowercase to the ApiKey keyword,
`authenticate` declines with no failure and no state change, for every
key table. -/
theorem other_scheme_declines (db : List APIKey) (req : Request)
    (now : Nat)
    (h : (bsplit req.auth_header).head?.map (List.map byteLower) ≠
          some keywordLowerBytes) :
    authenticate db req now = (.skipped, db) := by
  unfold authenticate
  cases hb : bsplit req.auth_header with
  | nil => rfl
  | cons t0 rest =>
    have hkw : ¬ t0.map byteLower = keywordLowerBytes := by
      intro hkw
      exact h (by rw [hb]; simp [hkw])
    simp [hkw]

/-- C10 witness: a Basic-scheme request is declined, not rejected, and
the key table is returned unchanged. -/
theorem other_scheme_declines_witness :
    authenticate [sampleKey] basicReq 7 = (.skipped, [sampleKey]) :=
  other_scheme_declines [sampleKey] basicReq 7 (by decide)

/-- Every value `secrets_choice` can produce lies in the alphabet. -/
theorem secrets_choice_mem (r : Nat) : secrets_choice r ∈ alphabet :=
  List.get_mem alphabet _ _

/-- C4: a record saved with no key receives a generated secret of length
64 drawn only from the 62-symbol alphabet, and its stored prefix is
exactly the first 8 characters of that secret, derived in the same save. -/
theorem generated_key_wellformed (k : APIKey) (rand : Nat → Nat)
    (h : k.key = "") :
    (k.save rand).key.length = 64
    ∧ (∀ c ∈ (k.save rand).key.data, c ∈ alphabet)
    ∧ (k.save rand).prefix8 = String.mk ((k.save rand).key.data.take 8) := by
  unfold APIKey.save
  rw [if_pos h]
  refine ⟨?_, ?_, rfl⟩
  · simp [generate_key, String.length]
  · intro c hc
    have hm : c ∈ (List.range 64).map fun i => secrets_choice (rand i) := hc
    simp only [List.mem_map, List.mem_range] at hm
    obtain ⟨i, _, hci⟩ := hm
    exact hci ▸ secrets_choice_mem (rand i)

/-- C4 witness: saving a concrete blank-keyed record with a concrete
entropy stream yields a 64-character secret whose prefix is its first 8
characters. -/
theorem generated_key_wellformed_witness :
    blankKey.key = ""
    ∧ (blankKey.save (fun i => i)).key.length = 64
    ∧ (blankKey.save (fun i => i)).prefix8 =
        String.mk ((blankKey.save (fun i => i)).key.data.take 8) :=
  ⟨rfl, (generated_key_wellformed blankKey (fun i => i) rfl).1,
        (generated_key_wellformed blankKey (fun i => i) rfl).2.2⟩

/-- C8: part one — whenever `authenticate_credentials` succeeds, the
returned record is the looked-up record with `request_count` incremented
by exactly one and `last_used` stamped to now, both written back in the
same update of the table; part two — a freshly issued key (blank key
slot, zero request count, sent through `save`) authenticates successfully
against a table holding just that key whenever it is valid, its owner is
active, the client IP is allowed and the method is permitted, returning
the owner and the record and leaving the count at exactly one. -/
theorem usage_increment_on_success :
    (∀ (db : List APIKey) (key : String) (req : Request) (now : Nat)
       (u : UserRec) (k2 : APIKey) (db2 : List APIKey),
        authenticate_credentials db key req now = (.success u k2, db2) →
        ∃ k0, db.find? (fun r => r.key == key) = some k0
          ∧ k2 = k0.increment_usage now
          ∧ k2.request_count = k0.request_count + 1
          ∧ k2.last_used = some now
          ∧ u = k0.user
          ∧ db2 = db.map fun r =>
              if r.key == k0.key then k0.increment_usage now else r)
    ∧ (∀ (k : APIKey) (rand : Nat → Nat) (req : Request) (now : Nat),
        k.key = "" → k.request_count = 0 →
        (k.save rand).is_valid now = true →
        (k.save rand).user.is_active = true →
        (k.save rand).is_ip_allowed (get_client_ip req) = true →
        (k.save rand).has_permission req.method = true →
        authenticate_credentials [k.save rand] (k.save rand).key req now =
          (.success ((k.save rand).increment_usage now).user
                    ((k.save rand).increment_usage now),
           [(k.save rand).increment_usage now])
        ∧ ((k.save rand).increment_usage now).request_count = 1) := by
  constructor
  · intro db key req now u k2 db2 h
    unfold authenticate_credentials at h
    cases hfind : db.find? (fun r => r.key == key) with
    | none =>
      rw [hfind] at h
      exact absurd h (by simp)
    | some k0 =>
      rw [hfind] at h
      simp only [check_rate_limit_eq_true, Bool.not_true,
        Bool.false_eq_true, if_false] at h
      split at h
      · exact absurd h (by simp)
      · split at h
        · exact absurd h (by simp)
        · split at h
          · exact absurd h (by simp)
          · split at h
            · exact absurd h (by simp)
            · simp only [Prod.mk.injEq, AuthOutcome.success.injEq] at h
              obtain ⟨⟨hu, hk⟩, hdb⟩ := h
              exact ⟨k0, rfl, hk.symm, hk.symm ▸ rfl, hk.symm ▸ rfl,
                     hu.symm, hdb.symm⟩
  · intro k rand req now hkey hcount hval huser hip hperm
    have hrc : (k.save rand).request_count = k.request_count := by
      unfold APIKey.save
      rw [if_pos hkey]
    constructor
    · unfold authenticate_credentials
      rw [show List.find? (fun r => r.key == (k.save rand).key) [k.save rand]
            = some (k.save rand) from by simp [List.find?]]
      simp [hval, huser, hip, hperm, check_rate_limit_eq_true]
    · unfold APIKey.increment_usage
      simp [hrc, hcount]

/-- C8 witness: the round trip on a concrete blank record and entropy
stream succeeds and leaves the request count at exactly 1. -/
theorem usage_increment_on_success_witness :
    ((blankKey.save (fun i => i)).increment_usage 5).request_count = 1 :=
  (usage_increment_on_success.2 blankKey (fun i => i) sampleReq 5
    rfl rfl (by decide) (by decide) (by decide) (by decide)).2

/-- C2 counterexample: a header whose two tokens are separated by TWO
spaces (bytes of: ApiKey··s) is not the single-space shape, yet it is
accepted — authentication succeeds against a table holding the key s —
instead of failing with a malformed-header error. -/
theorem two_space_header_accepted :
    (authenticate [sampleKey]
      ⟨[65, 112, 105, 75, 101, 121, 32, 32, 115], "GET", none, "1.2.3.4"⟩
      5).1
      = AuthOutcome.success sampleUser (sampleKey.increment_usage 5) := by
  decide

/-- C2 (amended): the header is tokenized on runs of whitespace, so the
scheme and credential may be separated by one or more whitespace bytes;
given the first token lowercases to the ApiKey keyword, the shapes with
no credential token, more than two tokens, or a non-decodable credential
fail immediately with the corresponding malformed-header error and the
key table is returned untouched (no lookup), while the two-token
decodable shape proceeds to the credential check. -/
theorem apikey_header_contract (db : List APIKey) (req : Request)
    (now : Nat) (t0 : List Nat) (rest : List (List Nat))
    (hsp : bsplit req.auth_header = t0 :: rest)
    (hkw : t0.map byteLower = keywordLowerBytes) :
    (rest = [] →
        authenticate db req now = (.failure .noCredentials, db))
    ∧ (∀ a b l, rest = a :: b :: l →
        authenticate db req now = (.failure .tooManyParts, db))
    ∧ (∀ cred, rest = [cred] → utf8Decode cred = none →
        authenticate db req now = (.failure .invalidChars, db))
    ∧ (∀ cred key, rest = [cred] → utf8Decode cred = some key →
        authenticate db req now = authenticate_credentials db key req now) := by
  unfold authenticate
  simp only [hsp]
  rw [if_pos hkw]
  refine ⟨?_, ?_, ?_, ?_⟩
  · intro h
    subst h
    rfl
  · intro a b l h
    subst h
    rfl
  · intro cred h hdec
    subst h
    simp only [hdec]
  · intro cred key h hdec
    subst h
    simp only [hdec]

/-- C2 witness: the concrete header consisting of the bare keyword
(bytes of: ApiKey) fails with the no-credentials malformed error. -/
theorem apikey_header_contract_witness :
    authenticate [] ⟨[65, 112, 105, 75, 101, 121], "GET", none, "1.2.3.4"⟩ 0
      = (AuthOutcome.failure AuthFailure.noCredentials, []) :=
  (apikey_header_contract []
    ⟨[65, 112, 105, 75, 101, 121], "GET", none, "1.2.3.4"⟩ 0
    [65, 112, 105, 75, 101, 121] [] (by decide) (by decide)).1 rfl
